import Mathlib

/-!
Shallow embedding of the `prompt` console-input validation library
(`src/prompt/__init__.py`).

The library validates and converts raw console input through composable
`Requirement` objects: `NotEmpty`, `Number`, `Between`, `Choice`, `Menu`,
and `Chain` (an ordered composition).  A `Prompt` drives a read-validate-
retry loop with exit-keyword cancellation.

Python values flowing through a chain are dynamically typed (a raw string
becomes an int, which can become an arbitrary menu item); we model them by
the closed universe `PyVal` sufficient for every value the library moves
around.  Python exceptions are modelled as explicit result channels:
`ValidationError` subclasses (caught by the loop and retried) map to
`MeetResult.fail`, while `AssertionError` / `TypeError` (programming
errors that no handler in the library catches) map to `MeetResult.fatal`.
-/

/-- Universe of Python values handled by the library: strings (raw input,
menu items), ints (parsed numbers), bools (choice targets), and lists. -/
inductive PyVal where
  | str (s : String)
  | int (n : Int)
  | bool (b : Bool)
  | list (items : List PyVal)

/-- Python `repr` for the values of our universe (`repr` of a string
quotes it; `repr` of a list is bracketed, comma-separated reprs). -/
def pyRepr : PyVal → String
  | .str s => "'" ++ s ++ "'"
  | .int n => toString n
  | .bool b => if b then "True" else "False"
  | .list items => "[" ++ pyReprList items ++ "]"
where
  /-- Comma-separated reprs of the elements, as Python renders a list body. -/
  pyReprList : List PyVal → String
  | [] => ""
  | [v] => pyRepr v
  | v :: rest => pyRepr v ++ ", " ++ pyReprList rest

/-- Python `str`: identity on strings, `repr` on the other values here. -/
def pyStr : PyVal → String
  | .str s => s
  | v => pyRepr v

/-- Python truthiness test (`if not string`): empty string, zero, `False`
and the empty list are falsy. -/
def pyFalsy : PyVal → Bool
  | .str s => s == ""
  | .int n => n == 0
  | .bool b => !b
  | .list items => items.isEmpty

/-- The `ValidationError` hierarchy: `Empty`, `NotANumber(value)`,
`NotInRange(min, max)`, `NotAnOption(options)`.  Payloads are the values
the source constructors receive (`NotAnOption` receives whatever is
passed in -- the source passes `self.hint()`, a string). -/
inductive ValidationError where
  | empty
  | notANumber (value : PyVal)
  | notInRange (min max : Int)
  | notAnOption (options : PyVal)

/-- The `__str__` rendering of each `ValidationError`, as displayed by the
prompt loop. -/
def ValidationError.display : ValidationError → String
  | .empty => "Empty"
  | .notANumber v => "'" ++ pyStr v ++ "' is not a number"
  | .notInRange mn mx =>
      "Please provide a value between " ++ toString mn ++ " and " ++ toString mx
  | .notAnOption opts => "Please select one of " ++ pyStr opts

/-- Outcome of `Requirement.meet`: a converted value, a `ValidationError`
(recoverable, caught by the prompt loop), or an uncaught programming
error (`AssertionError` from `Menu`, `TypeError` from a type-confused
comparison or conversion). -/
inductive MeetResult where
  | ok (v : PyVal)
  | fail (e : ValidationError)
  | fatal

/-- ASCII decimal digit test, `'0'` through `'9'`. -/
def isDig (c : Char) : Bool := 48 ≤ c.toNat && c.toNat ≤ 57

/-- Whitespace as stripped by Python's `str.strip` / `int` (space, tab,
newline, vertical tab, form feed, carriage return). -/
def isWs (c : Char) : Bool := c.toNat == 32 || (9 ≤ c.toNat && c.toNat ≤ 13)

/-- Digit tail of a Python integer literal: digits, optionally separated
by single underscores (an underscore must sit between two digits).
Accumulates the decimal value. -/
def pyDigitsAux : List Char → Nat → Option Nat
  | [], acc => some acc
  | c :: rest, acc =>
    if c == '_' then
      match rest with
      | [] => none
      | d :: rest2 =>
        if isDig d then pyDigitsAux rest2 (acc * 10 + (d.toNat - 48)) else none
    else if isDig c then pyDigitsAux rest (acc * 10 + (c.toNat - 48)) else none

/-- Nonempty digit run with optional internal underscores, as accepted by
Python's `int` after sign and whitespace handling. -/
def pyDigits : List Char → Option Nat
  | [] => none
  | c :: rest => if isDig c then pyDigitsAux rest (c.toNat - 48) else none

/-- Strips leading and trailing whitespace from a character list. -/
def trimChars (l : List Char) : List Char :=
  ((l.dropWhile isWs).reverse.dropWhile isWs).reverse

/-- Python `int(string)` in base 10 (modelled for ASCII input): strip
whitespace, optional single sign, then a digit run with optional
underscore separators.  `none` models the `ValueError` branch. -/
def pyIntOfString (s : String) : Option Int :=
  match trimChars s.toList with
  | [] => none
  | c :: rest =>
    if c == '+' then (pyDigits rest).map Int.ofNat
    else if c == '-' then (pyDigits rest).map (fun n => -(Int.ofNat n))
    else (pyDigits (c :: rest)).map Int.ofNat

/-- Python `str.strip()` on a string. -/
def pyStrip (s : String) : String := String.mk (trimChars s.toList)

/-- Lowercases one ASCII character: `A`..`Z` shift by 32, all else kept. -/
def lowerChar (c : Char) : Char :=
  if 65 ≤ c.toNat ∧ c.toNat ≤ 90 then Char.ofNat (c.toNat + 32) else c

/-- Python `str.lower()` (ASCII, which covers every input the claims
exercise). -/
def pyLower (s : String) : String := String.mk (s.toList.map lowerChar)

/-- The concrete `Requirement` subclasses, each holding its fixed
configuration: `NotEmpty`, `Number`, `Between(min, max)`,
`Choice(options_dict)` (insertion-ordered mapping, modelled as an
association list with distinct keys), `Menu(options)`. -/
inductive Requirement where
  | notEmpty
  | number
  | between (min max : Int)
  | choice (options : List (String × PyVal))
  | menu (options : List PyVal)

/-- Python `int(v)` applied to a chain value: parses strings, returns
ints unchanged, converts bools; `none` is the `ValueError` branch (only
strings can raise `ValueError`; a list would raise `TypeError`, handled
at the call site). -/
def pyToIntVE : PyVal → Option Int
  | .str s => pyIntOfString s
  | .int n => some n
  | .bool b => some (if b then 1 else 0)
  | .list _ => none

/-- View of a `PyVal` as a Python int for comparison and indexing
purposes (`bool` is an int subtype in Python); `none` means a comparison
against it raises `TypeError`. -/
def PyVal.asIntCmp : PyVal → Option Int
  | .int n => some n
  | .bool b => some (if b then 1 else 0)
  | _ => none

/-- `Requirement.hint`: the base class returns `''`; `Between` renders
its interval, `Choice` joins its labels with `/`. -/
def Requirement.hint : Requirement → String
  | .between mn mx =>
      if mn == mx then toString mn else toString mn ++ " - " ++ toString mx
  | .choice options => String.intercalate "/" (options.map Prod.fst)
  | _ => ""

/-- Lines of `Menu.__str__`: each option numbered from 1, `"{i}. {v}"`. -/
def menuLines (options : List PyVal) : List String :=
  options.enum.map (fun p => toString (p.1 + 1) ++ ". " ++ pyStr p.2)

/-- `Requirement.__str__` (the long description shown before the first
read): the base class returns `''`; `Menu` numbers its options one per
line. -/
def Requirement.describe : Requirement → String
  | .menu options => String.intercalate "\n" (menuLines options)
  | _ => ""

/-- `Requirement.meet`, per subclass, translated clause by clause:
  * `NotEmpty.meet`: `if not string: raise Empty(); return string`;
  * `Number.meet`: `try: return int(string) except ValueError: raise
    NotANumber(string)` (a `TypeError` from `int` on a list is uncaught);
  * `Between.meet`: `if not min <= value <= max: raise NotInRange(min,
    max); return value` (comparison with a non-number raises `TypeError`);
  * `Choice.meet`: `if value not in options: raise
    NotAnOption(self.hint()); return options[value]` (an unhashable value
    raises `TypeError`; a hashable non-key simply is not in the dict);
  * `Menu.meet`: `assert 1 <= value <= len(options); return
    options[value - 1]` (a failed assert is a programming error). -/
def Requirement.meet : Requirement → PyVal → MeetResult
  | .notEmpty, v => if pyFalsy v then .fail .empty else .ok v
  | .number, v =>
    match v with
    | .list _ => .fatal
    | v =>
      match pyToIntVE v with
      | some n => .ok (.int n)
      | none => .fail (.notANumber v)
  | .between mn mx, v =>
    match v.asIntCmp with
    | some n => if mn ≤ n ∧ n ≤ mx then .ok v else .fail (.notInRange mn mx)
    | none => .fatal
  | .choice options, v =>
    match v with
    | .str label =>
      match options.lookup label with
      | some r => .ok r
      | none => .fail (.notAnOption (.str (Requirement.hint (.choice options))))
    | .list _ => .fatal
    | _ => .fail (.notAnOption (.str (Requirement.hint (.choice options))))
  | .menu options, v =>
    match v.asIntCmp with
    | some n =>
      if 1 ≤ n ∧ n ≤ (options.length : Int) then
        .ok (options.getD (n - 1).toNat (.str ""))
      else .fatal
    | none => .fatal

/-- A `Chain` owns its ordered sequence of requirements. -/
abbrev Chain := List Requirement

/-- `Chain.meet`: feeds the value through each requirement in order,
propagating the first failure (the `for` loop stops at the first raised
exception). -/
def Chain.meet : Chain → PyVal → MeetResult
  | [], v => .ok v
  | r :: rs, v =>
    match r.meet v with
    | .ok w => Chain.meet rs w
    | .fail e => .fail e
    | .fatal => .fatal

/-- `Chain.hint`: the list comprehension keeps each requirement whose
hint is truthy and joins the hints with `", "`. -/
def Chain.hint (c : Chain) : String :=
  String.intercalate ", " ((c.filter (fun r => r.hint != "")).map Requirement.hint)

/-- `Chain.__str__`: the comprehension keeps each requirement whose
`__str__` is truthy and joins them with newlines. -/
def Chain.describe (c : Chain) : String :=
  String.intercalate "\n" ((c.filter (fun r => r.describe != "")).map Requirement.describe)

/-- `Prompt.EXIT`: keywords that cancel execution. -/
def EXIT : List String := ["exit", "quit"]

/-- Substring test on character lists (Python's `needle in haystack`):
the needle is a prefix of some suffix of the haystack. -/
def listContains (needle : List Char) : List Char → Bool
  | [] => needle.isEmpty
  | c :: t => needle.isPrefixOf (c :: t) || listContains needle t

/-- Python's `command in string` substring containment on strings. -/
def strContains (haystack needle : String) : Bool :=
  listContains needle.toList haystack.toList

/-- `Prompt._test_exit`: lowercases the (already stripped) input and
reports whether any exit keyword occurs in it as a substring; a hit
raises `Exit`, modelled as `true` here and routed to a dedicated loop
outcome distinct from every `ValidationError`. -/
def testExit (s : String) : Bool :=
  let lowered := pyLower s
  EXIT.any (fun command => strContains lowered command)

/-- Result of running `Prompt._prompt` against a scripted reader.
`written` lists every line handed to the injected writer, in order:
the one-time description, the `"(hint)"` decorations (the source prints
them with a trailing space instead of a newline), and the validation
messages.  `exited` models the `Exit` exception escaping the whole call
(never caught by the loop), `fatal` an uncaught programming error, and
`starved` the model artifact of the scripted reader running dry. -/
inductive LoopResult where
  | done (value : PyVal) (written : List String)
  | exited (written : List String)
  | fatal (written : List String)
  | starved (written : List String)

/-- `Prompt._print_hint`: writes `"({hint})"` when the chain hint is
nonempty, else writes nothing.  Writes accumulate in reverse. -/
def hintWrite (c : Chain) (w : List String) : List String :=
  if c.hint == "" then w else ("(" ++ c.hint ++ ")") :: w

/-- The `while True` body of `Prompt._prompt`, consuming one scripted
input line per iteration: print the hint, read, strip, test for exit,
then `meet`; a `ValidationError` is displayed and the loop retries. -/
def promptLoop (c : Chain) : List String → List String → LoopResult
  | [], w => .starved w.reverse
  | line :: rest, w =>
    let w1 := hintWrite c w
    let s := pyStrip line
    if testExit s then .exited w1.reverse
    else
      match Chain.meet c (.str s) with
      | .ok v => .done v w1.reverse
      | .fail e => promptLoop c rest (e.display :: w1)
      | .fatal => .fatal w1.reverse

/-- `Prompt._prompt`: writes the requirement description once when it is
nonempty, then enters the retry loop. -/
def promptRun (c : Chain) (inputs : List String) : LoopResult :=
  promptLoop c inputs (if c.describe == "" then [] else [c.describe])

namespace Prompt

/-- `Prompt.between(min, max)`: prompts through
`Chain(Number(), Between(min, max))`. -/
def between (mn mx : Int) (inputs : List String) : LoopResult :=
  promptRun [Requirement.number, Requirement.between mn mx] inputs

/-- `Prompt.choose(**options)`: prompts through `Choice(options)`. -/
def choose (options : List (String × PyVal)) (inputs : List String) : LoopResult :=
  promptRun [Requirement.choice options] inputs

/-- `Prompt.menu(*options)`: prompts through
`Chain(Number(), Between(1, len(options)), Menu(options))`. -/
def menu (options : List PyVal) (inputs : List String) : LoopResult :=
  promptRun [Requirement.number, Requirement.between 1 options.length,
             Requirement.menu options] inputs

/-- `Prompt.name()`: prompts through `NotEmpty()`. -/
def name (inputs : List String) : LoopResult :=
  promptRun [Requirement.notEmpty] inputs

/-- `Prompt.number()`: prompts through `Number()`. -/
def number (inputs : List String) : LoopResult :=
  promptRun [Requirement.number] inputs

end Prompt

/-- State-threaded `Requirement.meet`: each Python method receives
`self` and could in principle mutate it, so the embedding returns the
requirement that exists after the call next to the result.  Each clause
re-traces the corresponding method body, none of which assigns to
`self`. -/
def Requirement.meetS : Requirement → PyVal → Requirement × MeetResult
  | .notEmpty, v =>
      (.notEmpty, if pyFalsy v then .fail .empty else .ok v)
  | .number, v =>
      (.number, Requirement.meet .number v)
  | .between mn mx, v =>
      (.between mn mx,
        match v.asIntCmp with
        | some n => if mn ≤ n ∧ n ≤ mx then .ok v else .fail (.notInRange mn mx)
        | none => .fatal)
  | .choice options, v =>
      (.choice options, Requirement.meet (.choice options) v)
  | .menu options, v =>
      (.menu options, Requirement.meet (.menu options) v)

/-- State-threaded `Chain.meet`: threads every requirement's
post-call state back into the chain that later calls observe. -/
def Chain.meetS : Chain → PyVal → Chain × MeetResult
  | [], v => ([], .ok v)
  | r :: rs, v =>
    match r.meetS v with
    | (r1, .ok w) =>
      match Chain.meetS rs w with
      | (rs1, res) => (r1 :: rs1, res)
    | (r1, .fail e) => (r1 :: rs, .fail e)
    | (r1, .fatal) => (r1 :: rs, .fatal)

/-! ### Helper lemmas -/

/-- One step of the chain fold: apply the next requirement to a still
successful value, propagate a failure unchanged. -/
def chainStep (acc : MeetResult) (r : Requirement) : MeetResult :=
  match acc with
  | .ok w => r.meet w
  | e => e

lemma foldl_chainStep_fail (rs : Chain) (e : ValidationError) :
    rs.foldl chainStep (.fail e) = .fail e := by
  induction rs with
  | nil => rfl
  | cons r rs ih => simpa [chainStep] using ih

lemma foldl_chainStep_fatal (rs : Chain) :
    rs.foldl chainStep .fatal = .fatal := by
  induction rs with
  | nil => rfl
  | cons r rs ih => simpa [chainStep] using ih

lemma chainMeet_eq_foldl (rs : Chain) (v : PyVal) :
    Chain.meet rs v = rs.foldl chainStep (.ok v) := by
  induction rs generalizing v with
  | nil => rfl
  | cons r rs ih =>
    simp only [Chain.meet, List.foldl_cons]
    cases h : r.meet v with
    | ok w => simpa [chainStep, h] using ih w
    | fail e => simp [chainStep, h, foldl_chainStep_fail]
    | fatal => simp [chainStep, h, foldl_chainStep_fatal]

lemma chainMeet_append (xs ys : Chain) (v : PyVal) :
    Chain.meet (xs ++ ys) v
      = match Chain.meet xs v with
        | .ok w => Chain.meet ys w
        | .fail e => .fail e
        | .fatal => .fatal := by
  induction xs generalizing v with
  | nil => simp [Chain.meet]
  | cons r rs ih =>
    simp only [List.cons_append, Chain.meet]
    cases h : r.meet v with
    | ok w => simpa using ih w
    | fail e => simp
    | fatal => simp

/-! ### Claims -/

/-- C10: the empty `Chain` is an identity of the composition: its `meet`
returns the raw value untouched (the `for` loop has no iterations and no
exception can be raised), and both its hint and its display string are
the join of an empty list, the empty string. -/
theorem chain_empty_identity :
    (∀ (v : PyVal), Chain.meet [] v = .ok v)
  ∧ Chain.hint [] = ""
  ∧ Chain.describe [] = "" :=
  ⟨fun _ => rfl, rfl, rfl⟩

/-- C6: `Between(min, max).meet` is the identity on values inside the
closed interval and raises `NotInRange(min, max)` outside it; both
boundary values are accepted, as the concrete `Between(1, 5)` instances
show. -/
theorem between_meet_spec :
    (∀ (mn mx n : Int), mn ≤ n → n ≤ mx →
        Requirement.meet (.between mn mx) (.int n) = .ok (.int n))
  ∧ (∀ (mn mx n : Int), ¬(mn ≤ n ∧ n ≤ mx) →
        Requirement.meet (.between mn mx) (.int n) = .fail (.notInRange mn mx))
  ∧ Requirement.meet (.between 1 5) (.int 3) = .ok (.int 3)
  ∧ Requirement.meet (.between 1 5) (.int 1) = .ok (.int 1)
  ∧ Requirement.meet (.between 1 5) (.int 5) = .ok (.int 5)
  ∧ Requirement.meet (.between 1 5) (.int 0) = .fail (.notInRange 1 5) := by
  refine ⟨?_, ?_, rfl, rfl, rfl, rfl⟩
  · intro mn mx n h1 h2
    simp [Requirement.meet, PyVal.asIntCmp, h1, h2]
  · intro mn mx n h
    simp [Requirement.meet, PyVal.asIntCmp, h]

/-- Witness for C6: `Between(1, 5)` accepts 3. -/
theorem between_meet_spec_witness :
    Requirement.meet (.between 1 5) (.int 3) = .ok (.int 3) :=
  between_meet_spec.1 1 5 3 (by decide) (by decide)

/-- C1: `Chain.meet` is the left-to-right nested application of its
requirements (the fold of `chainStep` starting from the raw value), the
first failure short-circuits past every later requirement (the result is
that failure whatever `post` contains), and the concrete three-stage
chain maps `"2"` to `"b"` while `"5"` stops at `Between` with
`NotInRange(1, 3)` before `Menu` can run. -/
theorem chain_meet_spec :
    (∀ (rs : Chain) (v : PyVal),
        Chain.meet rs v = rs.foldl chainStep (.ok v))
  ∧ (∀ (pre post : Chain) (r : Requirement) (v w : PyVal) (e : ValidationError),
        Chain.meet pre v = .ok w → r.meet w = .fail e →
        Chain.meet (pre ++ r :: post) v = .fail e)
  ∧ Chain.meet [Requirement.number, Requirement.between 1 3,
        Requirement.menu [.str "a", .str "b", .str "c"]] (.str "2") = .ok (.str "b")
  ∧ Chain.meet [Requirement.number, Requirement.between 1 3,
        Requirement.menu [.str "a", .str "b", .str "c"]] (.str "5")
      = .fail (.notInRange 1 3) := by
  refine ⟨chainMeet_eq_foldl, ?_, rfl, rfl⟩
  intro pre post r v w e h1 h2
  rw [chainMeet_append, h1]
  simp [Chain.meet, h2]

/-- Witness for C1: in the three-stage chain split around `Between(1, 3)`,
the value 5 produced by `Number` makes `Between` fail, and the whole
chain fails with that outcome without `Menu` running. -/
theorem chain_meet_spec_witness :
    Chain.meet ([Requirement.number] ++ Requirement.between 1 3 ::
        [Requirement.menu [.str "a", .str "b", .str "c"]]) (.str "5")
      = .fail (.notInRange 1 3) :=
  chain_meet_spec.2.1 [Requirement.number]
    [Requirement.menu [.str "a", .str "b", .str "c"]]
    (Requirement.between 1 3) (.str "5") (.int 5) (.notInRange 1 3) rfl rfl

/-- C3 counterexample: `Choice.meet` on a missing label raises
`NotAnOption(self.hint())` -- the payload is the `/`-joined *string* of
the labels, not the list of labels the claim states, and the two render
to different display messages. -/
theorem choice_payload_cex :
    Requirement.meet (.choice [("yes", .bool true), ("no", .bool false)]) (.str "maybe")
      = .fail (.notAnOption (.str "yes/no"))
  ∧ PyVal.str "yes/no" ≠ PyVal.list [.str "yes", .str "no"]
  ∧ ValidationError.display (.notAnOption (.str "yes/no"))
      = "Please select one of yes/no"
  ∧ ValidationError.display (.notAnOption (.list [.str "yes", .str "no"]))
      = "Please select one of ['yes', 'no']" := by
  refine ⟨rfl, ?_, rfl, rfl⟩
  simp

/-- C3 amended: `Choice(options).meet(label)` returns the mapped value
`options[label]` when `label` is a key, and otherwise fails with a
`NotAnOption` outcome carrying the `/`-joined string of the available
labels (the chain's `hint()`), e.g. `"yes/no"`. -/
theorem choice_meet_amended :
    (∀ (options : List (String × PyVal)) (label : String) (r : PyVal),
        options.lookup label = some r →
        Requirement.meet (.choice options) (.str label) = .ok r)
  ∧ (∀ (options : List (String × PyVal)) (label : String),
        options.lookup label = none →
        Requirement.meet (.choice options) (.str label)
          = .fail (.notAnOption
              (.str (String.intercalate "/" (options.map Prod.fst)))))
  ∧ Requirement.meet (.choice [("yes", .bool true), ("no", .bool false)]) (.str "yes")
      = .ok (.bool true)
  ∧ Requirement.meet (.choice [("yes", .bool true), ("no", .bool false)]) (.str "maybe")
      = .fail (.notAnOption (.str "yes/no")) := by
  refine ⟨?_, ?_, rfl, rfl⟩
  · intro options label r h
    simp [Requirement.meet, h]
  · intro options label h
    simp [Requirement.meet, Requirement.hint, h]

/-- Witness for C3: looking up the present label `"yes"` returns the
mapped value `True`. -/
theorem choice_meet_amended_witness :
    Requirement.meet (.choice [("yes", .bool true), ("no", .bool false)]) (.str "yes")
      = .ok (.bool true) :=
  choice_meet_amended.1 [("yes", .bool true), ("no", .bool false)] "yes" (.bool true) rfl

lemma isDig_bounds {c : Char} (h : isDig c = true) :
    48 ≤ c.toNat ∧ c.toNat ≤ 57 := by
  simpa [isDig, Bool.and_eq_true, decide_eq_true_eq] using h

lemma isDig_not_ws {c : Char} (h : isDig c = true) : isWs c = false := by
  obtain ⟨h1, h2⟩ := isDig_bounds h
  simp only [isWs, Bool.or_eq_false_iff, beq_eq_false_iff_ne, ne_eq,
    Bool.and_eq_false_iff, decide_eq_false_iff_not, not_le]
  omega

lemma isDig_ne {c d : Char} (h : isDig c = true) (hd : isDig d = false) :
    (c == d) = false := by
  refine beq_eq_false_iff_ne.mpr (fun hc => ?_)
  subst hc
  rw [h] at hd
  exact Bool.noConfusion hd

lemma dropWhile_all_false {p : Char → Bool} :
    ∀ (l : List Char), (∀ c ∈ l, p c = false) → l.dropWhile p = l
  | [], _ => rfl
  | c :: rest, h => by
    simp [List.dropWhile_cons, h c (List.mem_cons_self c rest)]

lemma trimChars_all_digits (l : List Char) (h : ∀ c ∈ l, isDig c = true) :
    trimChars l = l := by
  have hws : ∀ c ∈ l, isWs c = false := fun c hc => isDig_not_ws (h c hc)
  unfold trimChars
  rw [dropWhile_all_false l hws,
    dropWhile_all_false l.reverse (fun c hc => hws c (List.mem_reverse.mp hc)),
    List.reverse_reverse]

lemma pyDigitsAux_all_digits :
    ∀ (l : List Char) (acc : Nat), (∀ c ∈ l, isDig c = true) →
      pyDigitsAux l acc
        = some (l.foldl (fun a c => a * 10 + (c.toNat - 48)) acc)
  | [], acc, _ => rfl
  | c :: rest, acc, h => by
    have hc : isDig c = true := h c (List.mem_cons_self c rest)
    have hu : (c == '_') = false := isDig_ne hc (by decide)
    rw [pyDigitsAux.eq_def]
    simp only [hu, Bool.false_eq_true, if_false, hc, if_true, List.foldl_cons]
    exact pyDigitsAux_all_digits rest _ (fun d hd => h d (List.mem_cons_of_mem c hd))

/-- C7: `Number().meet` parses its string argument with Python's `int`:
`"42"` becomes the integer 42, every unparseable string (such as
`"abc"`) fails with `NotANumber` carrying that raw string, and on a pure
run of decimal digits the parse returns exactly the base-10 value of the
digits. -/
theorem number_meet_spec :
    Requirement.meet .number (.str "42") = .ok (.int 42)
  ∧ (∀ (s : String), pyIntOfString s = none →
        Requirement.meet .number (.str s) = .fail (.notANumber (.str s)))
  ∧ (∀ (s : String) (n : Int), pyIntOfString s = some n →
        Requirement.meet .number (.str s) = .ok (.int n))
  ∧ Requirement.meet .number (.str "abc") = .fail (.notANumber (.str "abc"))
  ∧ (∀ (l : List Char), l ≠ [] → (∀ c ∈ l, isDig c = true) →
        pyIntOfString (String.mk l)
          = some (Int.ofNat (l.foldl (fun a c => a * 10 + (c.toNat - 48)) 0))) := by
  refine ⟨rfl, ?_, ?_, rfl, ?_⟩
  · intro s h
    simp [Requirement.meet, pyToIntVE, h]
  · intro s n h
    simp [Requirement.meet, pyToIntVE, h]
  · intro l hne h
    obtain ⟨c, rest, rfl⟩ := List.exists_cons_of_ne_nil hne
    have hc : isDig c = true := h c (List.mem_cons_self c rest)
    have hrest : ∀ d ∈ rest, isDig d = true :=
      fun d hd => h d (List.mem_cons_of_mem c hd)
    have htoList : (String.mk (c :: rest)).toList = c :: rest := rfl
    have hplus : (c == '+') = false := isDig_ne hc (by decide)
    have hminus : (c == '-') = false := isDig_ne hc (by decide)
    simp only [pyIntOfString, htoList, trimChars_all_digits _ h, hplus, hminus,
      Bool.false_eq_true, if_false, pyDigits, hc, if_true,
      pyDigitsAux_all_digits rest _ hrest, Option.map_some]
    simp [List.foldl_cons]

/-- Witness for C7: `"abc"` does not parse, so `Number().meet("abc")`
fails with `NotANumber("abc")`. -/
theorem number_meet_spec_witness :
    Requirement.meet .number (.str "abc") = .fail (.notANumber (.str "abc")) :=
  number_meet_spec.2.1 "abc" rfl

/-- C4: `Menu(options).meet(v)` carries the precondition
`1 <= v <= len(options)`: under it the 1-based item `options[v - 1]` is
returned, violating it trips the `assert` (an uncaught programming
error, `MeetResult.fatal`, never a `ValidationError`), and in the chain
`Prompt.menu` composes -- `Number()`, `Between(1, len(options))`,
`Menu(options)` -- no string input can ever reach that assert, so the
chain never produces the fatal outcome. -/
theorem menu_meet_assertion :
    (∀ (options : List PyVal) (n : Int),
        1 ≤ n → n ≤ (options.length : Int) →
        Requirement.meet (.menu options) (.int n)
          = .ok (options.getD (n - 1).toNat (.str "")))
  ∧ (∀ (options : List PyVal) (n : Int),
        ¬(1 ≤ n ∧ n ≤ (options.length : Int)) →
        Requirement.meet (.menu options) (.int n) = .fatal)
  ∧ (∀ (options : List PyVal) (s : String),
        Chain.meet [Requirement.number, Requirement.between 1 options.length,
          Requirement.menu options] (.str s) ≠ .fatal) := by
  refine ⟨?_, ?_, ?_⟩
  · intro options n h1 h2
    simp [Requirement.meet, PyVal.asIntCmp, h1, h2]
  · intro options n h
    simp [Requirement.meet, PyVal.asIntCmp, h]
  · intro options s
    simp only [Chain.meet, Requirement.meet, pyToIntVE]
    cases hp : pyIntOfString s with
    | none => simp
    | some n =>
      simp only [PyVal.asIntCmp]
      by_cases hr : (1 : Int) ≤ n ∧ n ≤ (options.length : Int)
      · simp [hr]
      · simp [hr]

/-- Witness for C4: `Menu(["a", "b", "c"]).meet(2)` satisfies the
precondition and returns the second item. -/
theorem menu_meet_assertion_witness :
    Requirement.meet (.menu [.str "a", .str "b", .str "c"]) (.int 2)
      = .ok (.str "b") :=
  menu_meet_assertion.1 [.str "a", .str "b", .str "c"] 2 (by decide) (by decide)

/-- C2: whenever the stripped, lowercased input line contains an exit
keyword as a substring, the loop raises `Exit` for any active
requirement: the iteration ends in the `exited` outcome (a channel
distinct from every `ValidationError`, untouched by the retry handler),
the only write of the iteration is the hint decoration -- no `meet` result
and no validation message can influence it -- and `promptRun` surfaces the
same outcome to its caller. -/
theorem prompt_exit_cancels :
    (∀ (c : Chain) (line : String) (rest w : List String),
        testExit (pyStrip line) = true →
        promptLoop c (line :: rest) w = .exited (hintWrite c w).reverse)
  ∧ (∀ (c : Chain) (line : String) (rest : List String),
        testExit (pyStrip line) = true →
        promptRun c (line :: rest)
          = .exited (hintWrite c
              (if c.describe == "" then [] else [c.describe])).reverse) := by
  constructor
  · intro c line rest w h
    simp [promptLoop, h]
  · intro c line rest h
    simp [promptRun, promptLoop, h]

/-- Witness for C2: the line `"quit"` cancels the bare prompt before any
validation output. -/
theorem prompt_exit_cancels_witness :
    promptLoop [] ["quit"] [] = .exited [] :=
  prompt_exit_cancels.1 [] "quit" [] [] (by decide)

/-- C5: end to end, `Prompt.between(1, 3)` fed the lines `"abc"` then
`"2"` writes the hint, one `NotANumber` message for `"abc"`, the hint
again, and returns the integer 2; in general one loop iteration on a
`ValidationError` writes the outcome's display message and re-enters the
loop on the remaining input, while on success it returns the converted
value with no further write. -/
theorem prompt_between_run :
    Prompt.between 1 3 ["abc", "2"]
      = .done (.int 2) ["(1 - 3)", "'abc' is not a number", "(1 - 3)"]
  ∧ (∀ (c : Chain) (line : String) (rest w : List String) (e : ValidationError),
        testExit (pyStrip line) = false →
        Chain.meet c (.str (pyStrip line)) = .fail e →
        promptLoop c (line :: rest) w
          = promptLoop c rest (e.display :: hintWrite c w))
  ∧ (∀ (c : Chain) (line : String) (rest w : List String) (v : PyVal),
        testExit (pyStrip line) = false →
        Chain.meet c (.str (pyStrip line)) = .ok v →
        promptLoop c (line :: rest) w = .done v (hintWrite c w).reverse) := by
  refine ⟨rfl, ?_, ?_⟩
  · intro c line rest w e h1 h2
    simp [promptLoop, h1, h2]
  · intro c line rest w v h1 h2
    simp [promptLoop, h1, h2]

/-- Witness for C5: the line `"7"` passes `Number()` directly, so the
loop returns 7 with no validation message. -/
theorem prompt_between_run_witness :
    promptLoop [Requirement.number] ["7"] [] = .done (.int 7) [] :=
  prompt_between_run.2.2 [Requirement.number] "7" [] [] (.int 7) (by decide) rfl

/-- C8: `Chain.hint` is the `", "`-join of exactly the non-empty
requirement hints and `Chain.__str__` the newline-join of exactly the
non-empty requirement descriptions, both in requirement order (the
source filters the requirements whose hint is truthy and then maps,
which coincides with filtering the mapped strings). -/
theorem chain_hint_describe_spec :
    (∀ (c : Chain),
        Chain.hint c
          = String.intercalate ", "
              ((c.map Requirement.hint).filter (fun s => s != "")))
  ∧ (∀ (c : Chain),
        Chain.describe c
          = String.intercalate "\n"
              ((c.map Requirement.describe).filter (fun s => s != "")))
  ∧ Chain.hint [Requirement.number, Requirement.between 1 3,
      Requirement.choice [("a", .int 1), ("b", .int 2)]] = "1 - 3, a/b"
  ∧ Chain.describe [Requirement.number, Requirement.between 1 3,
      Requirement.menu [.str "a", .str "b"]] = "1. a\n2. b" := by
  refine ⟨?_, ?_, rfl, rfl⟩
  · intro c
    rw [Chain.hint, List.filter_map]
    rfl
  · intro c
    rw [Chain.describe, List.filter_map]
    rfl

/-- C9: `meet` is a pure function of its input and fixed configuration:
threading the requirement state through each call (`meetS`) returns the
configuration unchanged next to exactly the result of the pure `meet`,
so a second call on the post-call state yields the same result as the
first -- no hidden state evolves between calls. -/
theorem meet_pure_spec :
    (∀ (r : Requirement) (v : PyVal), r.meetS v = (r, r.meet v))
  ∧ (∀ (c : Chain) (v : PyVal), Chain.meetS c v = (c, Chain.meet c v))
  ∧ (∀ (c : Chain) (v : PyVal),
        (Chain.meetS (Chain.meetS c v).1 v).2 = (Chain.meetS c v).2) := by
  have hr : ∀ (r : Requirement) (v : PyVal), r.meetS v = (r, r.meet v) := by
    intro r v
    cases r <;> rfl
  have hc : ∀ (c : Chain) (v : PyVal), Chain.meetS c v = (c, Chain.meet c v) := by
    intro c
    induction c with
    | nil => intro v; rfl
    | cons r rs ih =>
      intro v
      rw [Chain.meetS, hr r v]
      cases h : r.meet v with
      | ok w => simp [Chain.meet, h, ih w]
      | fail e => simp [Chain.meet, h]
      | fatal => simp [Chain.meet, h]
  exact ⟨hr, hc, fun c v => by rw [hc c v, hc c v]⟩
